import Mathlib

/-!
Shallow embedding of the `cryptodd_arrays` client library (Python) and
verification of spec-level claims about it.

The embedding follows the source modules:
  * `types.py`               → `Codec`
  * `_internal/codec_selector.py` → `recommendCodec`
  * `_internal/numpy_utils.py`    → `Dtype`, dtype-string maps
  * `lowlevel.py`            → `LowLevelWrapper`
  * `file.py`                → `Reader`, `PyWriter`
  * `stream/readers.py`      → `GroupedReader`
  * `stream/writers.py`      → `BufferedAutoChunker` calibration, `GroupedWriter`

Machine-level conventions: Python `dict`s become insertion-ordered
association lists, Python `set`s are compared up to membership, Python
exceptions become an explicit `PyError` sum returned through `Except`,
and every call that may reach the storage engine additionally returns the
list of requests actually forwarded to the engine (so that "no engine
call is issued" is a provable statement).  Python floats are modelled by
`ℚ`; the concrete inputs used in counterexamples and witnesses are chosen
so that the float computations they exercise are exact (or their `int`
truncation is insensitive to the rounding), as noted in place.
-/

namespace CryptoddArrays

/-- Element type tags supported by the engine (`_NP_DTYPE_TO_CDD_STR` keys
in `numpy_utils.py`). -/
inductive Dtype where
  | float16 | float32 | float64
  | int8 | uint8 | int16 | uint16 | int32 | uint32 | int64 | uint64
deriving DecidableEq, Repr, Inhabited

/-- Byte width of one scalar of the given dtype (NumPy `itemsize`). -/
def Dtype.itemsize : Dtype → Nat
  | .float16 => 2 | .float32 => 4 | .float64 => 8
  | .int8 => 1 | .uint8 => 1 | .int16 => 2 | .uint16 => 2
  | .int32 => 4 | .uint32 => 4 | .int64 => 8 | .uint64 => 8

/-- The C-API dtype string for a dtype (`_NP_DTYPE_TO_CDD_STR`). -/
def Dtype.cddStr : Dtype → String
  | .float16 => "FLOAT16" | .float32 => "FLOAT32" | .float64 => "FLOAT64"
  | .int8 => "INT8" | .uint8 => "UINT8" | .int16 => "INT16" | .uint16 => "UINT16"
  | .int32 => "INT32" | .uint32 => "UINT32" | .int64 => "INT64" | .uint64 => "UINT64"

/-- A NumPy array abstracted to the attributes this library inspects:
its shape (hence `ndim`, row count and `nbytes`) and its dtype. -/
structure NpArray where
  shape : List Nat
  dtype : Dtype
deriving DecidableEq, Repr, Inhabited

def NpArray.ndim (a : NpArray) : Nat := a.shape.length

/-- `data.shape[0]` (leading dimension); the code only reads it on arrays
of rank at least 1. -/
def NpArray.rows (a : NpArray) : Nat := a.shape.headD 0

def NpArray.nbytes (a : NpArray) : Nat := a.shape.prod * a.dtype.itemsize

/-- `np.concatenate` along axis 0, restricted to the shape/dtype level the
embedding tracks (callers pass lists of arrays with equal trailing shape
and dtype, as `GroupedWriter`/`BufferedAutoChunker` buffers do). -/
def npConcat (l : List NpArray) : NpArray :=
  { shape := (l.map NpArray.rows).sum :: ((l.headD default).shape.tail),
    dtype := (l.headD default).dtype }

/-- `Codec` enumeration from `types.py` (wire ids in `toNat`). -/
inductive Codec where
  | RAW | ZSTD_COMPRESSED
  | GENERIC_OB_SIMD_F16_AS_F32 | GENERIC_OB_SIMD_F32
  | TEMPORAL_1D_SIMD_F16_XOR_SHUFFLE_AS_F32 | TEMPORAL_1D_SIMD_F32_XOR_SHUFFLE
  | TEMPORAL_1D_SIMD_I64_XOR | TEMPORAL_1D_SIMD_I64_DELTA
  | TEMPORAL_2D_SIMD_F16_AS_F32 | TEMPORAL_2D_SIMD_F32 | TEMPORAL_2D_SIMD_I64
  | OKX_OB_SIMD_F16_AS_F32 | OKX_OB_SIMD_F32
  | BINANCE_OB_SIMD_F16_AS_F32 | BINANCE_OB_SIMD_F32
deriving DecidableEq, Repr, Inhabited

/-- Wire-format integer id of each codec (the `IntEnum` values). -/
def Codec.toNat : Codec → Nat
  | .RAW => 0 | .ZSTD_COMPRESSED => 1
  | .GENERIC_OB_SIMD_F16_AS_F32 => 6 | .GENERIC_OB_SIMD_F32 => 7
  | .TEMPORAL_1D_SIMD_F16_XOR_SHUFFLE_AS_F32 => 8 | .TEMPORAL_1D_SIMD_F32_XOR_SHUFFLE => 9
  | .TEMPORAL_1D_SIMD_I64_XOR => 10 | .TEMPORAL_1D_SIMD_I64_DELTA => 11
  | .TEMPORAL_2D_SIMD_F16_AS_F32 => 12 | .TEMPORAL_2D_SIMD_F32 => 13
  | .TEMPORAL_2D_SIMD_I64 => 14
  | .OKX_OB_SIMD_F16_AS_F32 => 2 | .OKX_OB_SIMD_F32 => 3
  | .BINANCE_OB_SIMD_F16_AS_F32 => 4 | .BINANCE_OB_SIMD_F32 => 5

/-- `codec_selector.recommend_codec`: structural match on
`(data.ndim, data.dtype)`. -/
def recommendCodec (data : NpArray) : Codec :=
  match data.ndim, data.dtype with
  | 3, .float32 => .GENERIC_OB_SIMD_F32
  | 2, .float32 => .TEMPORAL_2D_SIMD_F32
  | 2, .int64 => .TEMPORAL_2D_SIMD_I64
  | 1, .float32 => .TEMPORAL_1D_SIMD_F32_XOR_SHUFFLE
  | 1, .int64 => .TEMPORAL_1D_SIMD_I64_DELTA
  | _, _ => .ZSTD_COMPRESSED

instance exceptDecEq {ε α : Type _} [DecidableEq ε] [DecidableEq α] :
    DecidableEq (Except ε α) := fun a b =>
  match a, b with
  | .ok x, .ok y =>
    if h : x = y then .isTrue (by rw [h])
    else .isFalse (fun he => h (by cases he; rfl))
  | .error x, .error y =>
    if h : x = y then .isTrue (by rw [h])
    else .isFalse (fun he => h (by cases he; rfl))
  | .ok _, .error _ => .isFalse (fun he => Except.noConfusion he)
  | .error _, .ok _ => .isFalse (fun he => Except.noConfusion he)

/-- Python exception classes raised by this library, by class. -/
inductive PyError where
  | valueError (msg : String)
  | typeError (msg : String)
  | indexError (msg : String)
  | operationError (msg : String)
deriving DecidableEq, Repr, Inhabited

/-- One persisted chunk summary (`ChunkInfo` in `dataclasses.py`), as built
by `Reader.chunks` from the Inspect response.  The dtype is kept as the
C-API string, exactly as the code stores it. -/
structure ChunkInfo where
  index : Nat
  shape : List Nat
  dtype : String
  codec : Codec
  encodedSizeBytes : Nat
  decodedSizeBytes : Nat
deriving DecidableEq, Repr, Inhabited

/-- The parsed Inspect result the Reader caches: `chunk_summaries` and
`total_chunks` (header metadata is not needed by any claim). -/
structure Inspection where
  chunkSummaries : List ChunkInfo
  totalChunks : Nat
deriving DecidableEq, Repr, Inhabited

/-- `StoreResult` details of one `StoreChunk` operation
(`details.get(...)` defaults are `-1`, hence `Int` sizes). -/
structure StoreResultInfo where
  chunkIndex : Int
  originalSize : Int
  compressedSize : Int
deriving DecidableEq, Repr, Inhabited

/-- JSON operation requests sent to the engine, restricted to the
operation kinds the verified components issue (`json_builder.py`). -/
inductive OpRequest where
  | storeChunk (dtype : Dtype) (shape : List Nat) (codec : Codec)
  | loadChunks (startIndex : Nat) (count : Nat) (checkChecksums : Bool)
  | inspectReq
  | flushReq
deriving DecidableEq, Repr, Inhabited

/-- JSON `result` payloads returned by the engine. `emptyRes` stands for a
result document carrying none of the fields the client reads. -/
inductive OpResult where
  | store (details : StoreResultInfo)
  | inspectRes (i : Inspection)
  | load (finalShape : Option (List Nat))
  | emptyRes
deriving DecidableEq, Repr, Inhabited

/-- The external storage engine, abstracted as a function from a request
to either a C++-exception message or a result payload.  The engine is out
of scope for the spec; theorems quantify over it. -/
def Engine : Type := OpRequest → Except String OpResult

/-- `lowlevel.LowLevelWrapper` state: the opaque handle plus the local
`_closed` flag (the handle itself lives in the engine parameter). -/
structure LowLevelWrapper where
  closed : Bool
deriving DecidableEq, Repr, Inhabited

/-- `LowLevelWrapper.execute`: rejects locally when closed, otherwise
forwards one request to the engine and translates engine failures into
`CddOperationError`.  The second component is the list of requests that
actually reached the engine. -/
def LowLevelWrapper.execute (w : LowLevelWrapper) (eng : Engine) (req : OpRequest) :
    Except PyError OpResult × List OpRequest :=
  if w.closed then
    (.error (.valueError "Operation attempted on a closed CddFile."), [])
  else
    match eng req with
    | .error e => (.error (.operationError e), [req])
    | .ok res => (.ok res, [req])

/-- `LowLevelWrapper.close`: sets `_closed` (idempotent at this layer). -/
def LowLevelWrapper.closeWrap (_w : LowLevelWrapper) : LowLevelWrapper :=
  { closed := true }

/-- `file.Writer` (named `PyWriter` to avoid clashing with Mathlib),
holding its wrapper. -/
structure PyWriter where
  wrapper : LowLevelWrapper
deriving DecidableEq, Repr, Inhabited

/-- `Writer.flush`: executes one Flush operation through the wrapper. -/
def PyWriter.flushW (eng : Engine) (w : PyWriter) : Except PyError Unit × List OpRequest :=
  match w.wrapper.execute eng .flushReq with
  | (.error e, tr) => (.error e, tr)
  | (.ok _, tr) => (.ok (), tr)

/-- `Writer.close`: flush, then close the wrapper.  Returns the raised
error (if any), the writer state afterwards, and the engine trace.  When
the flush raises, the wrapper state is left as it was. -/
def PyWriter.closeW (eng : Engine) (w : PyWriter) :
    Except PyError Unit × PyWriter × List OpRequest :=
  match w.flushW eng with
  | (.error e, tr) => (.error e, w, tr)
  | (.ok _, tr) => (.ok (), ⟨w.wrapper.closeWrap⟩, tr)

/-- A Python `slice` object: optional start, stop, step. -/
structure PySlice where
  start : Option Int
  stop : Option Int
  step : Option Int
deriving DecidableEq, Repr, Inhabited

/-- CPython index adjustment used by `slice.indices`: add `n` to negative
indices, then clamp into `[lower, upper]`. -/
def adjustIndex (v n lower upper : Int) : Int :=
  if v < 0 then max (v + n) lower else min v upper

/-- CPython `slice.indices(n)`: resolves the three fields to concrete
integers; a zero step raises `ValueError`. -/
def sliceIndices (s : PySlice) (n : Nat) : Except PyError (Int × Int × Int) :=
  let step := s.step.getD 1
  if step = 0 then .error (.valueError "slice step cannot be zero")
  else
    let N : Int := (n : Int)
    let lower : Int := if step < 0 then -1 else 0
    let upper : Int := if step < 0 then N - 1 else N
    let start := match s.start with
      | none => if step < 0 then upper else lower
      | some v => adjustIndex v N lower upper
    let stop := match s.stop with
      | none => if step < 0 then lower else upper
      | some v => adjustIndex v N lower upper
    .ok (start, stop, step)

/-- Python list slicing `l[start:stop]` for the resolved, non-negative
bounds produced by `slice.indices` (negative arguments clamp to 0 here;
callers only pass resolved bounds). -/
def pyListSlice (l : List α) (start stop : Int) : List α :=
  (l.take stop.toNat).drop start.toNat

/-- Python `range(start, stop, step)` as a list, for a non-zero step. -/
def pyRange (start stop step : Int) : List Int :=
  let count : Nat :=
    if step > 0 then ((stop - start) + (step - 1)).toNat / step.toNat
    else ((start - stop) + (-step - 1)).toNat / (-step).toNat
  (List.range count).map (fun k => start + step * (k : Int))

/-- `numpy_utils.cdd_str_to_numpy_dtype` (`_CDD_STR_TO_NP_DTYPE` lookup);
unknown strings raise `ValueError`. -/
def cddStrToNumpyDtype (s : String) : Except PyError Dtype :=
  match s with
  | "FLOAT16" => .ok .float16
  | "FLOAT32" => .ok .float32
  | "FLOAT64" => .ok .float64
  | "INT8" => .ok .int8
  | "UINT8" => .ok .uint8
  | "INT16" => .ok .int16
  | "UINT16" => .ok .uint16
  | "INT32" => .ok .int32
  | "UINT32" => .ok .uint32
  | "INT64" => .ok .int64
  | "UINT64" => .ok .uint64
  | _ => .error (.valueError ("Unknown C-API dtype string: " ++ s))

/-- `json_builder.build_load_chunks_req` for a resolved slice:
`count = stop - start`, clamped at 0. -/
def buildLoadChunksReq (start stop : Int) (check : Bool) : OpRequest :=
  .loadChunks start.toNat (stop - start).toNat check

/-- `file.Reader` state: wrapper, checksum flag, and the
`cached_property` memo for the one-time Inspect call. -/
structure Reader where
  wrapper : LowLevelWrapper
  checkChecksums : Bool
  inspectionCache : Option Inspection
deriving DecidableEq, Repr, Inhabited

/-- Parse the `result` document of an Inspect call, with the `.get`
defaults the Reader applies when fields are missing. -/
def toInspection : OpResult → Inspection
  | .inspectRes i => i
  | _ => ⟨[], 0⟩

/-- `Reader._inspection`: returns the cached inspection, or performs the
engine Inspect once and memoizes it. -/
def Reader.inspectionGet (eng : Engine) (r : Reader) :
    Except PyError Inspection × Reader × List OpRequest :=
  match r.inspectionCache with
  | some i => (.ok i, r, [])
  | none =>
    match r.wrapper.execute eng .inspectReq with
    | (.error e, tr) => (.error e, r, tr)
    | (.ok res, tr) =>
      let insp := toInspection res
      (.ok insp, { r with inspectionCache := some insp }, tr)

/-- The zero-length result `np.array([], dtype=np.uint8)`. -/
def emptyUint8Array : NpArray := ⟨[0], .uint8⟩

/-- Body of `Reader.__getitem__` after the key has been resolved to a
concrete `[start, stop)` range (file.py lines 249-270): select the chunk
summaries, return an empty array on an empty selection, check the dtypes,
then issue one LoadChunks call and reshape to the reported final shape. -/
def Reader.loadRange (eng : Engine) (r : Reader) (insp : Inspection) (start stop : Int) :
    Except PyError NpArray × List OpRequest :=
  let chunksToLoad := pyListSlice insp.chunkSummaries start stop
  match chunksToLoad with
  | [] => (.ok emptyUint8Array, [])
  | c :: rest =>
    match cddStrToNumpyDtype c.dtype with
    | .error e => (.error e, [])
    | .ok outDtype =>
      if ¬ ((c :: rest).all (fun x => x.dtype == c.dtype)) then
        (.error (.typeError "Cannot concatenate chunks with different dtypes."), [])
      else
        let totalElements := ((c :: rest).map (fun x => x.shape.prod)).sum
        let req := buildLoadChunksReq start stop r.checkChecksums
        match r.wrapper.execute eng req with
        | (.error e, tr) => (.error e, tr)
        | (.ok res, tr) =>
          let finalShape := match res with
            | .load (some fs) => fs
            | _ => [totalElements]
          (.ok ⟨finalShape, outDtype⟩, tr)

/-- `Reader.__getitem__` with a slice key: inspect (memoized), resolve
the slice, reject non-unit steps, then load the range. -/
def Reader.getItemSlice (eng : Engine) (r : Reader) (key : PySlice) :
    Except PyError NpArray × Reader × List OpRequest :=
  match r.inspectionGet eng with
  | (.error e, r1, tr) => (.error e, r1, tr)
  | (.ok insp, r1, tr) =>
    match sliceIndices key insp.totalChunks with
    | .error e => (.error e, r1, tr)
    | .ok (start, stop, step) =>
      if step ≠ 1 then
        (.error (.indexError "Slicing with a step is not supported."), r1, tr)
      else
        let res := r1.loadRange eng insp start stop
        (res.1, r1, tr ++ res.2)

/-- `Reader.__getitem__` with an integer key: resolve a negative index
against `nchunks`, bounds-check, then load the single-chunk range. -/
def Reader.getItemInt (eng : Engine) (r : Reader) (key : Int) :
    Except PyError NpArray × Reader × List OpRequest :=
  match r.inspectionGet eng with
  | (.error e, r1, tr) => (.error e, r1, tr)
  | (.ok insp, r1, tr) =>
    let n : Int := (insp.totalChunks : Int)
    let resolved := if key ≥ 0 then key else key + n
    if ¬ (0 ≤ resolved ∧ resolved < n) then
      (.error (.indexError "Chunk index out of range"), r1, tr)
    else
      let res := r1.loadRange eng insp resolved (resolved + 1)
      (res.1, r1, tr ++ res.2)

/-- Ordered-dict lookup on an association list (Python `dict` access). -/
def alistLookup (l : List (String × α)) (k : String) : Option α :=
  (l.find? (fun p => p.1 == k)).map (fun p => p.2)

/-- Ordered-dict lookup with a default. -/
def alistGetD (l : List (String × α)) (k : String) (d : α) : α :=
  (alistLookup l k).getD d

/-- Append `v` to the list stored at an existing key `k`
(`d[k].append(v)` when `k` is present). -/
def alistAppendAt (l : List (String × List α)) (k : String) (v : α) :
    List (String × List α) :=
  l.map (fun p => if p.1 == k then (p.1, p.2 ++ [v]) else p)

/-- `defaultdict(list)` append: create the key at the end on first use. -/
def ddAppend (l : List (String × List α)) (k : String) (v : α) :
    List (String × List α) :=
  if (alistLookup l k).isSome then alistAppendAt l k v else l ++ [(k, [v])]

/-- The dict comprehension building the empty per-name chunk lists
(duplicated names collapse onto their first position, as in Python). -/
def dictInitNames (names : List String) : List (String × List ChunkInfo) :=
  names.foldl
    (fun acc n => if (alistLookup acc n).isSome then acc else acc ++ [(n, [])]) []

/-- The partition loop of
`GroupedReader._discover_and_validate_structure`: chunk `i` is appended
to the list of `names[i % len(names)]`. -/
def partitionChunks (allChunks : List ChunkInfo) (names : List String) :
    List (String × List ChunkInfo) :=
  allChunks.enum.foldl
    (fun acc p => alistAppendAt acc (names.getD (p.1 % names.length) "") p.2)
    (dictInitNames names)

/-- The alignment error message (chunk count not a multiple of the name
count). -/
def alignmentMsg (total numNames : Nat) : String :=
  "File contains " ++ toString total ++
  " total chunks, which is not a multiple of the number of grouped names (" ++
  toString numNames ++ ")."

/-- The misalignment error message (per-name chunk counts differ). -/
def mismatchMsg (firstKey : String) (numGroups : Nat) (name : String) (count : Nat) :
    String :=
  "Chunk count mismatch in grouped arrays. " ++ firstKey ++ " has " ++
  toString numGroups ++ " chunks, but " ++ name ++ " has " ++ toString count ++ "."

/-- The count-validation loop over `names[1:]`: the first name whose
partition size differs from the first name's raises `ValueError`. -/
def checkCounts (grouped : List (String × List ChunkInfo)) (numGroups : Nat)
    (firstKey : String) : List String → Except PyError Unit
  | [] => .ok ()
  | name :: rest =>
    let count := (alistGetD grouped name []).length
    if count ≠ numGroups then
      .error (.valueError (mismatchMsg firstKey numGroups name count))
    else
      checkCounts grouped numGroups firstKey rest

/-- `GroupedReader._discover_and_validate_structure`: alignment check,
partition by position modulo the name count, then per-name count check.
`GroupedReader.create` guards `names ≠ []` before calling this. -/
def discoverAndValidateStructure (allChunks : List ChunkInfo) (names : List String) :
    Except PyError (List (String × List ChunkInfo) × Nat) :=
  let numNames := names.length
  if allChunks.length % numNames ≠ 0 then
    .error (.valueError (alignmentMsg allChunks.length numNames))
  else
    let grouped := partitionChunks allChunks names
    let firstKey := names.headD ""
    let numGroups := (alistGetD grouped firstKey []).length
    match checkCounts grouped numGroups firstKey names.tail with
    | .error e => .error e
    | .ok _ => .ok (grouped, numGroups)

/-- `stream.readers.GroupedReader` after construction. -/
structure GroupedReader where
  reader : Reader
  names : List String
  groupedChunkInfo : List (String × List ChunkInfo)
  numGroups : Nat
deriving DecidableEq, Repr, Inhabited

/-- `GroupedReader.__init__`: rejects an empty name sequence, reads the
chunk list (memoized Inspect), then discovers and validates the group
structure. -/
def GroupedReader.create (eng : Engine) (reader : Reader) (names : List String) :
    Except PyError GroupedReader × Reader × List OpRequest :=
  if names = [] then
    (.error (.valueError "names sequence cannot be empty."), reader, [])
  else
    match reader.inspectionGet eng with
    | (.error e, r1, tr) => (.error e, r1, tr)
    | (.ok insp, r1, tr) =>
      match discoverAndValidateStructure insp.chunkSummaries names with
      | .error e => (.error e, r1, tr)
      | .ok (grouped, numGroups) => (.ok ⟨r1, names, grouped, numGroups⟩, r1, tr)

/-- One row group: one array per name, in name order (with distinct
names this coincides with the Python dict the code builds). -/
def GroupData : Type := List (String × NpArray)

instance : DecidableEq GroupData := by
  unfold GroupData
  infer_instance

/-- `GroupedReader.__getitem__` with an integer key: resolve a negative
index, bounds-check, then read each name's key-th physical chunk through
the underlying reader. -/
def GroupedReader.getGroup (eng : Engine) (gr : GroupedReader) (key : Int) :
    Except PyError GroupData :=
  let resolved := if key < 0 then key + (gr.numGroups : Int) else key
  if ¬ (0 ≤ resolved ∧ resolved < (gr.numGroups : Int)) then
    .error (.indexError "Group index out of range.")
  else
    gr.names.mapM (fun name =>
      match (alistGetD gr.groupedChunkInfo name []).get? resolved.toNat with
      | none => .error (.indexError "list index out of range")
      | some ci =>
        match (gr.reader.getItemInt eng (ci.index : Int)).1 with
        | .error e => .error e
        | .ok arr => .ok (name, arr))

/-- The generator object returned by `GroupedReader.__getitem__` on a
slice: it captures the reader and the remaining indices of
`range(start, stop, step)`, and is consumed as it is iterated. -/
structure GroupIter where
  gr : GroupedReader
  remaining : List Int
deriving DecidableEq, Repr, Inhabited

/-- `GroupedReader.__getitem__` with a slice key: resolve the slice
against `num_groups` and return the generator over the resolved range. -/
def GroupedReader.getItemSliceIter (gr : GroupedReader) (key : PySlice) :
    Except PyError GroupIter :=
  match sliceIndices key gr.numGroups with
  | .error e => .error e
  | .ok (start, stop, step) => .ok ⟨gr, pyRange start stop step⟩

/-- The iteration loop of the generator: produce the group of each
remaining index in order; the second component is the remaining-index
list once iteration stops (always exhausted). -/
def drainAux (eng : Engine) (gr : GroupedReader) :
    List Int → List (Except PyError GroupData) × List Int
  | [] => ([], [])
  | i :: rest =>
    let p := drainAux eng gr rest
    (gr.getGroup eng i :: p.1, p.2)

/-- Exhaust the generator (`list(it)` / a `for` loop): yields the
produced groups and the generator object in its final, consumed state. -/
def GroupIter.drain (eng : Engine) (it : GroupIter) :
    List (Except PyError GroupData) × GroupIter :=
  let p := drainAux eng it.gr it.remaining
  (p.1, ⟨it.gr, p.2⟩)

/-- Python `int(x)` on a float/rational: truncation toward zero. -/
def pyInt (q : ℚ) : ℤ := if q < 0 then ⌈q⌉ else ⌊q⌋

/-- `BufferedAutoChunker` calibration state (writers.py lines 18-43):
constructor arguments plus the lazily-estimated compression ratio and
the derived uncompressed buffering threshold.  Python floats are
modelled by `ℚ`. -/
structure AutoChunker where
  targetChunkBytes : Nat
  minCompressionRatio : ℚ
  maxBufferBytes : Nat
  compressionRatioEstimate : Option ℚ
  uncompressedChunkSize : ℤ
deriving DecidableEq, Repr, Inhabited

/-- `BufferedAutoChunker.__init__`: `_max_buffer_bytes = target * mult`,
no ratio yet, and the initial threshold
`min(int(target / min_ratio), max_buffer_bytes)`. -/
def AutoChunker.init (target : Nat) (minRatio : ℚ) (mult : Nat) : AutoChunker :=
  let maxBufferBytes := target * mult
  { targetChunkBytes := target
    minCompressionRatio := minRatio
    maxBufferBytes := maxBufferBytes
    compressionRatioEstimate := none
    uncompressedChunkSize := min (pyInt ((target : ℚ) / minRatio)) (maxBufferBytes : ℤ) }

/-- `BufferedAutoChunker._estimate_compression_ratio` (lines 45-67):
no-op when already calibrated or the sample has no rows; otherwise take
the probe measurement `(original_size, compressed_size)` reported by the
throwaway in-memory store (the probe write itself is the engine's work
and enters as the two size arguments), derive the assumed ratio, and
set the threshold `min(int(target / ratio), max_buffer_bytes)`. -/
def AutoChunker.estimateCompressionRatioStep (s : AutoChunker) (dataRows : Nat)
    (originalSize compressedSize : Int) : AutoChunker :=
  if s.compressionRatioEstimate.isSome ∨ dataRows = 0 then s
  else
    let ratio : ℚ :=
      if originalSize > 0 then
        max s.minCompressionRatio ((compressedSize : ℚ) / (originalSize : ℚ))
      else (1 : ℚ) / 2
    { s with
      compressionRatioEstimate := some ratio
      uncompressedChunkSize :=
        min (pyInt ((s.targetChunkBytes : ℚ) / ratio)) (s.maxBufferBytes : ℤ) }

/-- The claimed threshold formula, written from the spec sentence for
comparison with the code's value: `min(target / ratio, target * mult)`
over the reals (no integer truncation). -/
def specClaimThreshold (target mult : Nat) (ratio : ℚ) : ℚ :=
  min ((target : ℚ) / ratio) ((target * mult : Nat) : ℚ)

/-- A chunk written to the underlying store by `GroupedWriter.flush`,
with the originating buffer name kept as ghost data (the store itself
holds no name); the chunk's physical index is its position in the
written list. -/
structure WChunk where
  name : String
  arr : NpArray
  codec : Codec
deriving DecidableEq, Repr, Inhabited

/-- `stream.writers.GroupedWriter` state.  `written` is the underlying
(open) `Writer`'s chunk sequence; `buffers` is the insertion-ordered
`defaultdict(list)`; `arrayNames` is the recorded key set (a Python
`set`, compared up to membership). -/
structure GroupedWriter where
  writerClosed : Bool
  written : List WChunk
  targetChunkBytes : Nat
  codecs : List (String × Codec)
  minCompressionRatio : ℚ
  maxBufferBytes : Nat
  buffers : List (String × List NpArray)
  totalBufferedBytes : Nat
  uncompressedChunkSize : ℤ
  arrayNames : Option (List String)
deriving DecidableEq, Repr, Inhabited

/-- `GroupedWriter.__init__` over an open writer. -/
def GroupedWriter.init (target : Nat) (codecs : List (String × Codec))
    (minRatio : ℚ) (mult : Nat) : GroupedWriter :=
  let maxBufferBytes := target * mult
  { writerClosed := false
    written := []
    targetChunkBytes := target
    codecs := codecs
    minCompressionRatio := minRatio
    maxBufferBytes := maxBufferBytes
    buffers := []
    totalBufferedBytes := 0
    uncompressedChunkSize := min (pyInt ((target : ℚ) / minRatio)) (maxBufferBytes : ℤ)
    arrayNames := none }

/-- A probe oracle for `_estimate_uncompressed_chunk_size`: the summed
`(original, compressed)` byte counts the throwaway in-memory store
reports for the sampled group (engine behaviour, hence a parameter). -/
def ProbeOracle : Type := List (String × NpArray) → ℚ × ℚ

/-- `GroupedWriter._estimate_uncompressed_chunk_size` (lines 151-180):
no-op once `arrayNames` is recorded; otherwise derive the overall ratio
from the probe sums and set the shared threshold. -/
def GroupedWriter.estimateUncompressedChunkSize (probe : ProbeOracle)
    (s : GroupedWriter) (data : List (String × NpArray)) : GroupedWriter :=
  if s.arrayNames.isSome then s
  else
    let p := probe data
    let overallRatio : ℚ :=
      if p.1 > 0 then max s.minCompressionRatio (p.2 / p.1) else (1 : ℚ) / 2
    { s with
      uncompressedChunkSize :=
        min (pyInt ((s.targetChunkBytes : ℚ) / overallRatio)) (s.maxBufferBytes : ℤ) }

/-- Python set equality of two key lists (`set(a) == set(b)`). -/
def keysEqAsSets (a b : List String) : Bool :=
  a.all (fun k => b.contains k) && b.all (fun k => a.contains k)

/-- One iteration of the `GroupedWriter.flush` write loop: a buffer
entry with a non-empty fragment list becomes one concatenated chunk.  A
codec configured for the name is used when set; Python's
`codecs.get(name) or recommend_codec(...)` treats the falsy `Codec.RAW`
(integer value 0) like a missing entry, which the embedding mirrors. -/
def mkChunkRecord (codecs : List (String × Codec)) (p : String × List NpArray) :
    Option WChunk :=
  match p.2 with
  | [] => none
  | l =>
    let fullChunk := npConcat l
    let codecToUse :=
      match alistLookup codecs p.1 with
      | some c => if c.toNat = 0 then recommendCodec fullChunk else c
      | none => recommendCodec fullChunk
    some ⟨p.1, fullChunk, codecToUse⟩

/-- The chunks `GroupedWriter.flush` writes: one per buffer entry with a
non-empty fragment list, in the buffers' insertion order. -/
def GroupedWriter.newChunkRecords (s : GroupedWriter) : List WChunk :=
  s.buffers.filterMap (mkChunkRecord s.codecs)

/-- `GroupedWriter.flush` (lines 213-226): early return on an empty byte
counter, otherwise write one chunk per buffered name through the
underlying writer, then clear the buffers and the counter. -/
def GroupedWriter.flushGW (s : GroupedWriter) : GroupedWriter :=
  if s.totalBufferedBytes = 0 then s
  else
    { s with
      written := s.written ++ s.newChunkRecords
      buffers := []
      totalBufferedBytes := 0 }

/-- Ghost observation: pair each chunk of a flush batch with the
physical index it receives, starting at `base`. -/
def traceAux (base : Nat) : List WChunk → List (String × Nat)
  | [] => []
  | c :: cs => (c.name, base) :: traceAux (base + 1) cs

/-- Ghost observation of one `flush` call: the `(name, physical index)`
pairs it writes (empty when the flush is a no-op). -/
def GroupedWriter.flushTrace (s : GroupedWriter) : List (String × Nat) :=
  if s.totalBufferedBytes = 0 then []
  else traceAux s.written.length s.newChunkRecords

/-- `GroupedWriter.append` (lines 182-211): closed-writer check, silent
return on an empty dict, key-set recording/validation, row-count
validation, buffer/counter update, then auto-flush at the threshold.
Besides the new state it returns the traces of the flushes it performed
(ghost data; Python returns `None`). -/
def GroupedWriter.append (probe : ProbeOracle) (s : GroupedWriter)
    (data : List (String × NpArray)) :
    Except PyError (GroupedWriter × List (List (String × Nat))) :=
  if s.writerClosed then .error (.valueError "Cannot append to a closed writer.")
  else if data = [] then .ok (s, [])
  else
    let currentKeys := data.map Prod.fst
    let afterKeys : Except PyError GroupedWriter :=
      match s.arrayNames with
      | none =>
        let s1 := s.estimateUncompressedChunkSize probe data
        .ok { s1 with arrayNames := some currentKeys }
      | some ns =>
        if keysEqAsSets ns currentKeys then .ok s
        else .error (.valueError "Appended group must contain the same set of array names.")
    match afterKeys with
    | .error e => .error e
    | .ok s1 =>
      let numRows := (data.headD ("", default)).2.rows
      if ¬ (data.all (fun p => p.2.rows == numRows)) then
        .error (.valueError "All arrays in a group append must have the same number of rows.")
      else
        let s2 := data.foldl
          (fun acc p =>
            { acc with
              buffers := ddAppend acc.buffers p.1 p.2
              totalBufferedBytes := acc.totalBufferedBytes + p.2.nbytes })
          s1
        if (s2.totalBufferedBytes : ℤ) ≥ s2.uncompressedChunkSize then
          .ok (s2.flushGW, if s2.flushTrace = [] then [] else [s2.flushTrace])
        else
          .ok (s2, [])

/-- One client operation against a `GroupedWriter`. -/
inductive GWOp where
  | appendOp (data : List (String × NpArray))
  | flushOp
deriving Repr

/-- Run a sequence of operations, accumulating the ghost flush traces of
every flush that actually emitted chunks. -/
def GroupedWriter.run (probe : ProbeOracle) (s : GroupedWriter)
    (traces : List (List (String × Nat))) :
    List GWOp → Except PyError (GroupedWriter × List (List (String × Nat)))
  | [] => .ok (s, traces)
  | .appendOp d :: rest =>
    match s.append probe d with
    | .error e => .error e
    | .ok (s1, ts) => GroupedWriter.run probe s1 (traces ++ ts) rest
  | .flushOp :: rest =>
    GroupedWriter.run probe s.flushGW
      (traces ++ (if s.flushTrace = [] then [] else [s.flushTrace])) rest

/-- Whether all recorded flush traces wrote their chunks under the same
name order. -/
def flushOrdersConsistent (traces : List (List (String × Nat))) : Bool :=
  match traces with
  | [] => true
  | t :: ts => ts.all (fun u => u.map Prod.fst == t.map Prod.fst)

/-- Whether one flush trace satisfies the claimed congruence
`index(name_k) ≡ index(name_0) + k (mod len(names))` with respect to a
caller-supplied name order: `index(name)` is the physical index the
flush gave to that name's chunk. -/
def claimCongruence (names : List String) (t : List (String × Nat)) : Bool :=
  (List.range names.length).all (fun k =>
    (alistGetD t (names.getD k "") 0) % names.length
      == ((alistGetD t (names.getD 0 "") 0) + k) % names.length)

/-- A benign engine that acknowledges every operation. -/
def engAllOk : Engine := fun _ => .ok .emptyRes

/-- A freshly opened writer (wrapper not closed). -/
def pw0 : PyWriter := ⟨⟨false⟩⟩

/-- An engine serving a store with no chunks. -/
def emptyStoreEngine : Engine := fun req =>
  match req with
  | .inspectReq => .ok (.inspectRes ⟨[], 0⟩)
  | _ => .ok .emptyRes

/-- A freshly opened reader: no Inspect performed yet. -/
def freshReader : Reader := ⟨⟨false⟩, true, none⟩

/-- The full slice `[:]`. -/
def fullSlice : PySlice := ⟨none, none, none⟩

/-- A float32 chunk summary of shape `(2,)` at the given index. -/
def ciF32 (i : Nat) : ChunkInfo := ⟨i, [2], "FLOAT32", .RAW, 8, 8⟩

/-- An int64 chunk summary of shape `(2,)` at the given index. -/
def ciI64 (i : Nat) : ChunkInfo := ⟨i, [2], "INT64", .RAW, 16, 16⟩

/-- A two-chunk store layout used by the grouped-reader scenarios. -/
def insp3 : Inspection := ⟨[ciF32 0, ciF32 1], 2⟩

/-- A reader over `insp3` whose inspection is already cached. -/
def r3 : Reader := ⟨⟨false⟩, true, some insp3⟩

/-- An engine serving the `insp3` store: loads succeed with final shape
`(2,)`. -/
def E3 : Engine := fun req =>
  match req with
  | .inspectReq => .ok (.inspectRes insp3)
  | .loadChunks _ _ _ => .ok (.load (some [2]))
  | _ => .ok .emptyRes

/-- The grouped reader built over `r3` with names `a`, `b`. -/
def c3gr : GroupedReader := ⟨r3, ["a", "b"], [("a", [ciF32 0]), ("b", [ciF32 1])], 1⟩

/-- The generator `c3gr[:]` before any iteration. -/
def c3iter : GroupIter := ⟨c3gr, [0]⟩

/-- A reader whose two cached chunks have different element types. -/
def rMixed : Reader := ⟨⟨false⟩, true, some ⟨[ciF32 0, ciI64 1], 2⟩⟩

/-- A probe oracle reporting zero sampled bytes (the ratio then defaults
to one half). -/
def cexProbe : ProbeOracle := fun _ => (0, 0)

/-- A one-element float32 array (4 bytes, 1 row). -/
def f32cell : NpArray := ⟨[1], .float32⟩

/-- The C1 scenario: two appends with the same key set but different key
order, each followed by an explicit flush. -/
def c1ops : List GWOp :=
  [ .appendOp [("a", f32cell), ("b", f32cell), ("c", f32cell)]
  , .flushOp
  , .appendOp [("c", f32cell), ("b", f32cell), ("a", f32cell)]
  , .flushOp ]

/-- The ghost flush traces the C1 scenario produces. -/
def c1traces : List (List (String × Nat)) :=
  [ [("a", 0), ("b", 1), ("c", 2)]
  , [("c", 3), ("b", 4), ("a", 5)] ]

/-- The C1 scenario run from a fresh grouped writer. -/
def c1run : Except PyError (GroupedWriter × List (List (String × Nat))) :=
  GroupedWriter.run cexProbe (GroupedWriter.init 1000000 [] (1 / 10) 10) [] c1ops

/-- The flush traces observed in the C1 scenario (empty on error). -/
def c1tracesOf : List (List (String × Nat)) :=
  match c1run with
  | .ok p => p.2
  | .error _ => []

/-- A reachable grouped-writer state right before a flush: two names
buffered in the order `a`, `b`. -/
def c1wState : GroupedWriter :=
  ⟨false, [], 1000000, [], 1 / 10, 10000000,
   [("a", [f32cell]), ("b", [f32cell])], 8, 2000000, some ["a", "b"]⟩

/-- A cached three-chunk inspection (odd chunk count). -/
def inspOdd : Inspection := ⟨[ciF32 0, ciF32 1, ciF32 2], 3⟩

/-- A reader over `inspOdd` with the inspection cached. -/
def rOdd : Reader := ⟨⟨false⟩, true, some inspOdd⟩

end CryptoddArrays

namespace CryptoddArrays

/-- C6: the Codec Advisor's recommendation is a deterministic pure
function of the array's rank and element type only, and implements the
stated priority policy: rank 3 float32 → orderbook codec; rank 2
float32/int64 → 2D-temporal codecs; rank 1 float32 → 1D xor-shuffle,
rank 1 int64 → 1D delta; everything else → generic ZSTD codec. -/
theorem recommendCodec_policy (a b : NpArray) :
    (a.ndim = b.ndim → a.dtype = b.dtype → recommendCodec a = recommendCodec b) ∧
    (a.ndim = 3 ∧ a.dtype = .float32 → recommendCodec a = .GENERIC_OB_SIMD_F32) ∧
    (a.ndim = 2 ∧ a.dtype = .float32 → recommendCodec a = .TEMPORAL_2D_SIMD_F32) ∧
    (a.ndim = 2 ∧ a.dtype = .int64 → recommendCodec a = .TEMPORAL_2D_SIMD_I64) ∧
    (a.ndim = 1 ∧ a.dtype = .float32 →
      recommendCodec a = .TEMPORAL_1D_SIMD_F32_XOR_SHUFFLE) ∧
    (a.ndim = 1 ∧ a.dtype = .int64 → recommendCodec a = .TEMPORAL_1D_SIMD_I64_DELTA) ∧
    (¬ (a.ndim = 3 ∧ a.dtype = .float32) →
     ¬ (a.ndim = 2 ∧ (a.dtype = .float32 ∨ a.dtype = .int64)) →
     ¬ (a.ndim = 1 ∧ (a.dtype = .float32 ∨ a.dtype = .int64)) →
      recommendCodec a = .ZSTD_COMPRESSED) := by
  unfold recommendCodec
  refine ⟨?_, ?_, ?_, ?_, ?_, ?_, ?_⟩
  · intro hn hd
    rw [hn, hd]
  · rintro ⟨hn, hd⟩; rw [hn, hd]
  · rintro ⟨hn, hd⟩; rw [hn, hd]
  · rintro ⟨hn, hd⟩; rw [hn, hd]
  · rintro ⟨hn, hd⟩; rw [hn, hd]
  · rintro ⟨hn, hd⟩; rw [hn, hd]
  · intro h3 h2 h1
    rcases hn : a.ndim with _ | _ | _ | _ | n <;>
      rcases hd : a.dtype <;>
        simp_all

/-- Witness for C6: evaluates the policy theorem at a concrete rank-2
float32 array and at a concrete rank-4 uint8 array. -/
theorem recommendCodec_policy_witness :
    recommendCodec ⟨[5, 7], .float32⟩ = .TEMPORAL_2D_SIMD_F32 ∧
    recommendCodec ⟨[2, 2, 2, 2], .uint8⟩ = .ZSTD_COMPRESSED := by
  constructor
  · exact (recommendCodec_policy ⟨[5, 7], .float32⟩ ⟨[], .uint8⟩).2.2.1 ⟨rfl, rfl⟩
  · exact (recommendCodec_policy ⟨[2, 2, 2, 2], .uint8⟩ ⟨[], .uint8⟩).2.2.2.2.2.2
      (by simp [NpArray.ndim]) (by simp [NpArray.ndim]) (by simp [NpArray.ndim])

end CryptoddArrays

namespace CryptoddArrays

/-- C9: on a closed Engine Bridge handle, every `execute` call fails with
the local state error and forwards nothing to the engine — for every
engine and every request, independently of both. -/
theorem lowLevelWrapper_execute_after_close (w : LowLevelWrapper) (eng : Engine)
    (req : OpRequest) (h : w.closed = true) :
    w.execute eng req
      = (.error (.valueError "Operation attempted on a closed CddFile."), []) := by
  unfold LowLevelWrapper.execute
  rw [h]
  simp

/-- Witness for C9 at a concrete closed wrapper and request. -/
theorem lowLevelWrapper_execute_after_close_witness :
    LowLevelWrapper.execute ⟨true⟩ engAllOk .flushReq
      = (.error (.valueError "Operation attempted on a closed CddFile."), []) :=
  lowLevelWrapper_execute_after_close ⟨true⟩ engAllOk .flushReq rfl

/-- C2 counterexample: closing a fresh writer succeeds and marks it
closed, but calling `close()` again raises the closed-handle
`ValueError` (the unconditional pre-close flush hits the closed wrapper),
so the second close is not a no-op. -/
theorem writer_double_close_cex :
    (pw0.closeW engAllOk).1 = .ok () ∧
    (pw0.closeW engAllOk).2.1.wrapper.closed = true ∧
    ((pw0.closeW engAllOk).2.1.closeW engAllOk).1
      = .error (.valueError "Operation attempted on a closed CddFile.") :=
  ⟨rfl, rfl, rfl⟩

/-- C2 amended: `close()` on an already-closed writer raises the local
closed-handle `ValueError` (from the flush that `close` always attempts
first), leaves the writer state unchanged, and issues no engine
request. -/
theorem writer_close_when_closed (eng : Engine) (w : PyWriter)
    (h : w.wrapper.closed = true) :
    w.closeW eng
      = (.error (.valueError "Operation attempted on a closed CddFile."), w, []) := by
  unfold PyWriter.closeW PyWriter.flushW LowLevelWrapper.execute
  rw [h]
  simp

/-- Witness for the amended C2 at a concrete closed writer. -/
theorem writer_close_when_closed_witness :
    PyWriter.closeW engAllOk ⟨⟨true⟩⟩
      = (.error (.valueError "Operation attempted on a closed CddFile."), ⟨⟨true⟩⟩, []) :=
  writer_close_when_closed engAllOk ⟨⟨true⟩⟩ rfl

/-- C10: `GroupedWriter.append` with an empty dictionary on an open
writer is a silent no-op: it succeeds, performs no flush, and returns
the state unchanged — for every probe oracle and every state (in
particular whatever key set is recorded), so no validation, recording,
buffering or engine work happens. -/
theorem groupedWriter_append_empty (probe : ProbeOracle) (s : GroupedWriter)
    (h : s.writerClosed = false) :
    s.append probe [] = .ok (s, []) := by
  unfold GroupedWriter.append
  rw [h]
  simp

/-- Witness for C10 at a concrete open writer with a recorded key set
and a non-empty buffer. -/
theorem groupedWriter_append_empty_witness :
    GroupedWriter.append cexProbe
      ⟨false, [], 10, [], 1 / 10, 100, [("x", [f32cell])], 4, 5, some ["x"]⟩ []
      = .ok (⟨false, [], 10, [], 1 / 10, 100, [("x", [f32cell])], 4, 5, some ["x"]⟩, []) :=
  groupedWriter_append_empty cexProbe
    ⟨false, [], 10, [], 1 / 10, 100, [("x", [f32cell])], 4, 5, some ["x"]⟩ rfl

end CryptoddArrays

namespace CryptoddArrays

/-- C8 counterexample: on a freshly opened reader (inspection not yet
cached), an empty slice selection does return a zero-length array, but
the operation issues an engine call (the memoized Inspect) and mutates
the reader cache — the claim that no engine call is issued and the
cached state is unchanged fails here. -/
theorem reader_empty_slice_cex :
    (freshReader.getItemSlice emptyStoreEngine fullSlice).1 = .ok emptyUint8Array ∧
    (freshReader.getItemSlice emptyStoreEngine fullSlice).2.2 = [.inspectReq] ∧
    [OpRequest.inspectReq] ≠ ([] : List OpRequest) ∧
    (freshReader.getItemSlice emptyStoreEngine fullSlice).2.1 ≠ freshReader := by
  refine ⟨rfl, rfl, by decide, by decide⟩

/-- C8 amended: once the chunk index is cached, a slice that selects no
chunks returns the zero-length `uint8` array, issues no engine call at
all, and leaves the reader state unchanged (on first use the one-time
memoized Inspect call is issued and populates the cache). -/
theorem reader_empty_slice_cached (eng : Engine) (r : Reader) (key : PySlice)
    (insp : Inspection) (hc : r.inspectionCache = some insp)
    (start stop : Int)
    (hs : sliceIndices key insp.totalChunks = .ok (start, stop, 1))
    (hempty : pyListSlice insp.chunkSummaries start stop = ([] : List ChunkInfo)) :
    r.getItemSlice eng key = (.ok emptyUint8Array, r, []) := by
  unfold Reader.getItemSlice Reader.inspectionGet Reader.loadRange
  simp [hc, hs, hempty]

/-- Witness for the amended C8: reader `r3` with a cached two-chunk
index, slice `0:0`. -/
theorem reader_empty_slice_cached_witness :
    Reader.getItemSlice E3 r3 ⟨some 0, some 0, none⟩ = (.ok emptyUint8Array, r3, []) :=
  reader_empty_slice_cached E3 r3 ⟨some 0, some 0, none⟩ insp3 rfl 0 0 rfl rfl

/-- C7: with the chunk index cached, (i) a slice step other than 1 and
other than 0 raises the unsupported-step `IndexError`, (ii) the
degenerate step 0 raises `ValueError` from slice resolution itself,
(iii) a unit-step slice whose selected chunks carry more than one
distinct element type raises the concatenation `TypeError`; in all
cases the error is local: no request reaches the engine. -/
theorem reader_slice_errors (eng : Engine) (r : Reader) (key : PySlice)
    (insp : Inspection) (hc : r.inspectionCache = some insp) :
    (∀ st : Int, key.step = some st → st ≠ 0 → st ≠ 1 →
      r.getItemSlice eng key
        = (.error (.indexError "Slicing with a step is not supported."), r, [])) ∧
    (key.step = some 0 →
      r.getItemSlice eng key
        = (.error (.valueError "slice step cannot be zero"), r, [])) ∧
    (∀ (start stop : Int) (c : ChunkInfo) (cs : List ChunkInfo) (d : Dtype),
      sliceIndices key insp.totalChunks = .ok (start, stop, 1) →
      pyListSlice insp.chunkSummaries start stop = c :: cs →
      cddStrToNumpyDtype c.dtype = .ok d →
      (c :: cs).all (fun x => x.dtype == c.dtype) = false →
      r.getItemSlice eng key
        = (.error (.typeError "Cannot concatenate chunks with different dtypes."), r, [])) := by
  refine ⟨?_, ?_, ?_⟩
  · intro st hst h0 h1
    unfold Reader.getItemSlice Reader.inspectionGet
    simp [hc, sliceIndices, hst, h0, h1]
  · intro hst
    unfold Reader.getItemSlice Reader.inspectionGet
    simp [hc, sliceIndices, hst]
  · intro start stop c cs d hs hsel hdt hall
    unfold Reader.getItemSlice Reader.inspectionGet Reader.loadRange
    simp [hc, hs, hsel, hdt, hall]

/-- Witness for C7: a cached reader over a float32 chunk and an int64
chunk; step-2 slicing errors, and the full unit-step slice over the two
mixed chunks raises the `TypeError`. -/
theorem reader_slice_errors_witness :
    Reader.getItemSlice E3 rMixed ⟨none, none, some 2⟩
      = (.error (.indexError "Slicing with a step is not supported."), rMixed, []) ∧
    Reader.getItemSlice E3 rMixed fullSlice
      = (.error (.typeError "Cannot concatenate chunks with different dtypes."), rMixed, []) := by
  constructor
  · exact (reader_slice_errors E3 rMixed ⟨none, none, some 2⟩
      ⟨[ciF32 0, ciI64 1], 2⟩ rfl).1 2 rfl (by decide) (by decide)
  · exact (reader_slice_errors E3 rMixed fullSlice
      ⟨[ciF32 0, ciI64 1], 2⟩ rfl).2.2 0 2 (ciF32 0) [ciI64 1] .float32
      rfl rfl rfl (by decide)

end CryptoddArrays

namespace CryptoddArrays

/-- Helper: if some name in the checked tail has a partition count
different from `numGroups`, the count-validation loop raises the
misalignment `ValueError` (for the first such name it meets). -/
theorem checkCounts_mismatch (grouped : List (String × List ChunkInfo))
    (numGroups : Nat) (firstKey : String) :
    ∀ l : List String,
      (∃ name ∈ l, (alistGetD grouped name []).length ≠ numGroups) →
      ∃ name count, checkCounts grouped numGroups firstKey l
        = .error (.valueError (mismatchMsg firstKey numGroups name count)) := by
  intro l
  induction l with
  | nil => intro h; simp at h
  | cons a rest ih =>
    intro h
    by_cases ha : (alistGetD grouped a []).length = numGroups
    · obtain ⟨name, hmem, hnei⟩ := h
      have hrest : ∃ name ∈ rest, (alistGetD grouped name []).length ≠ numGroups := by
        rcases List.mem_cons.mp hmem with rfl | h2
        · exact absurd ha hnei
        · exact ⟨name, h2, hnei⟩
      obtain ⟨name2, count2, hcc⟩ := ih hrest
      refine ⟨name2, count2, ?_⟩
      simpa [checkCounts, ha] using hcc
    · exact ⟨a, (alistGetD grouped a []).length, by simp [checkCounts, ha]⟩

/-- C4: constructing a `GroupedReader` (over a reader with the chunk
index cached) fails with the alignment `ValueError` when the total chunk
count is not a multiple of the number of names, and — when it is a
multiple — fails with the misalignment `ValueError` as soon as some
name's partition count differs from the first name's; in both cases no
engine request is issued and no reader state changes. -/
theorem groupedReader_create_validates (eng : Engine) (r : Reader)
    (names : List String) (insp : Inspection)
    (hc : r.inspectionCache = some insp) (hne : names ≠ []) :
    (insp.chunkSummaries.length % names.length ≠ 0 →
      GroupedReader.create eng r names
        = (.error (.valueError
            (alignmentMsg insp.chunkSummaries.length names.length)), r, [])) ∧
    (insp.chunkSummaries.length % names.length = 0 →
      (∃ name ∈ names.tail,
        (alistGetD (partitionChunks insp.chunkSummaries names) name []).length
          ≠ (alistGetD (partitionChunks insp.chunkSummaries names)
              (names.headD "") []).length) →
      ∃ name count,
        GroupedReader.create eng r names
          = (.error (.valueError (mismatchMsg (names.headD "")
              (alistGetD (partitionChunks insp.chunkSummaries names)
                (names.headD "") []).length name count)), r, [])) := by
  have hget : r.inspectionGet eng = (.ok insp, r, []) := by
    unfold Reader.inspectionGet
    rw [hc]
  constructor
  · intro hmod
    simp [GroupedReader.create, hget, discoverAndValidateStructure, hne, hmod]
  · intro hmod hmis
    obtain ⟨name, count, hcc⟩ :=
      checkCounts_mismatch (partitionChunks insp.chunkSummaries names)
        ((alistGetD (partitionChunks insp.chunkSummaries names)
          (names.headD "") []).length)
        (names.headD "") names.tail hmis
    refine ⟨name, count, ?_⟩
    simp [GroupedReader.create, hget, discoverAndValidateStructure, hne, hmod]
    simp only [List.headD_eq_head?_getD] at hcc
    rw [hcc]

/-- Witness for C4: two names over three chunks trigger the alignment
error; the duplicated name list over three chunks passes the modulo
check but fails the per-name count check. -/
theorem groupedReader_create_validates_witness :
    GroupedReader.create E3 rOdd ["a", "b"]
      = (.error (.valueError (alignmentMsg 3 2)), rOdd, []) ∧
    (∃ name count,
      GroupedReader.create E3 rOdd ["a", "b", "a"]
        = (.error (.valueError (mismatchMsg "a" 2 name count)), rOdd, [])) := by
  constructor
  · exact (groupedReader_create_validates E3 rOdd ["a", "b"] inspOdd rfl
      (by decide)).1 (by decide)
  · have h := (groupedReader_create_validates E3 rOdd ["a", "b", "a"] inspOdd rfl
      (by decide)).2 (by decide) ⟨"b", by decide, by decide⟩
    have e : (alistGetD (partitionChunks inspOdd.chunkSummaries ["a", "b", "a"])
        (["a", "b", "a"].headD "") []).length = 2 := by decide
    rw [e] at h
    exact h

/-- Helper: the generator loop yields the groups of the remaining
indices in order and ends exhausted. -/
theorem drainAux_eq (eng : Engine) (gr : GroupedReader) (l : List Int) :
    drainAux eng gr l = (l.map (gr.getGroup eng), []) := by
  induction l with
  | nil => rfl
  | cons i rest ih => simp [drainAux, ih]

/-- Helper: exhausting a group iterator yields the groups of its
remaining indices in order and leaves the iterator with no remaining
indices. -/
theorem groupIter_drain_eq (eng : Engine) (gr : GroupedReader) (l : List Int) :
    GroupIter.drain eng ⟨gr, l⟩ = (l.map (gr.getGroup eng), ⟨gr, []⟩) := by
  simp [GroupIter.drain, drainAux_eq]

/-- C3 amended: `g[s]` returns a fresh generator over the selected group
indices, but that generator is one-shot: a first full iteration yields
the selected groups in order and consumes it, and iterating the same
returned object a second time yields the empty sequence (two separate
`g[s]` calls, by purity, each start fresh). -/
theorem groupedReader_slice_one_shot (eng : Engine) (gr : GroupedReader)
    (key : PySlice) (it : GroupIter) (h : gr.getItemSliceIter key = .ok it) :
    (GroupIter.drain eng it).1 = it.remaining.map (gr.getGroup eng) ∧
    (GroupIter.drain eng it).2.remaining = [] ∧
    (GroupIter.drain eng ((GroupIter.drain eng it).2)).1 = [] := by
  unfold GroupedReader.getItemSliceIter at h
  rcases hs : sliceIndices key gr.numGroups with e | ⟨start, stop, step⟩
  · rw [hs] at h
    exact absurd h (by simp)
  · rw [hs] at h
    obtain rfl : it = ⟨gr, pyRange start stop step⟩ := by
      injection h with h2
      exact h2.symm
    simp [groupIter_drain_eq]

/-- Witness for the amended C3 at the concrete two-name grouped store. -/
theorem groupedReader_slice_one_shot_witness :
    (GroupIter.drain E3 c3iter).1 = c3iter.remaining.map (c3gr.getGroup E3) ∧
    (GroupIter.drain E3 c3iter).2.remaining = [] ∧
    (GroupIter.drain E3 ((GroupIter.drain E3 c3iter).2)).1 = [] :=
  groupedReader_slice_one_shot E3 c3gr fullSlice c3iter rfl

/-- C3 counterexample: over a store with one group, the value returned
by `c3gr[:]` yields one group on its first iteration but nothing on a
second iteration of the same returned object — the returned sequence is
not stateless, refuting the claim that a second iteration yields the
same sequence. -/
theorem groupedReader_slice_stateless_cex :
    GroupedReader.create E3 r3 ["a", "b"] = (.ok c3gr, r3, []) ∧
    c3gr.getItemSliceIter fullSlice = .ok c3iter ∧
    (GroupIter.drain E3 c3iter).1.length = 1 ∧
    (GroupIter.drain E3 ((GroupIter.drain E3 c3iter).2)).1 = [] ∧
    (GroupIter.drain E3 ((GroupIter.drain E3 c3iter).2)).1
      ≠ (GroupIter.drain E3 c3iter).1 := by
  refine ⟨rfl, rfl, rfl, rfl, ?_⟩
  intro h
  exact absurd (congrArg List.length h) (by decide)

end CryptoddArrays

namespace CryptoddArrays

/-- Helper: a buffer entry with a non-empty fragment list yields exactly
one chunk record, carrying that entry's name. -/
theorem mkChunkRecord_name (codecs : List (String × Codec)) (p : String × List NpArray)
    (h : p.2 ≠ []) : ∃ c, mkChunkRecord codecs p = some c ∧ c.name = p.1 := by
  obtain ⟨k, l⟩ := p
  cases l with
  | nil => exact absurd rfl h
  | cons a rest => exact ⟨_, rfl, rfl⟩

/-- Helper: when every buffer entry is non-empty, the flush write loop
produces exactly one chunk per entry, named in buffer order. -/
theorem filterMap_mkChunkRecord_names (codecs : List (String × Codec)) :
    ∀ bufs : List (String × List NpArray), (∀ p ∈ bufs, p.2 ≠ []) →
      (bufs.filterMap (mkChunkRecord codecs)).map WChunk.name = bufs.map Prod.fst := by
  intro bufs
  induction bufs with
  | nil => intro _; rfl
  | cons q rest ih =>
    intro h
    obtain ⟨c, hc, hname⟩ := mkChunkRecord_name codecs q (h q (by simp))
    simp [List.filterMap_cons, hc, hname, ih (fun p hp => h p (by simp [hp]))]

/-- Helper: the ghost trace lists the batch names in order. -/
theorem traceAux_map_fst :
    ∀ (l : List WChunk) (base : Nat), (traceAux base l).map Prod.fst = l.map WChunk.name := by
  intro l
  induction l with
  | nil => intro _; rfl
  | cons c cs ih => intro base; simp [traceAux, ih]

/-- Helper: the k-th chunk of a flush batch gets physical index
`base + k`. -/
theorem traceAux_idx :
    ∀ (l : List WChunk) (base k : Nat), k < l.length →
      ((traceAux base l).getD k ("", 0)).2 = base + k := by
  intro l
  induction l with
  | nil => intro base k h; simp at h
  | cons c cs ih =>
    intro base k h
    cases k with
    | zero => simp [traceAux]
    | succ k2 =>
      have h2 : k2 < cs.length := Nat.lt_of_succ_lt_succ h
      simp only [traceAux, List.getD_cons_succ]
      rw [ih (base + 1) k2 h2]
      omega

/-- C1 amended: a non-trivial flush over buffers whose key order is
`names` (the insertion order of the appends since the previous flush)
writes exactly one concatenated chunk per name, in that order, at
consecutive physical indices; consequently
`index(name_k) ≡ index(name_0) + k (mod len(names))` holds for that
flush whenever `names` is the order the caller supplied.  The order is
the per-cycle buffer insertion order, not an order fixed across all
flushes. -/
theorem groupedWriter_flush_order (s : GroupedWriter) (names : List String)
    (hkeys : s.buffers.map Prod.fst = names)
    (hne : ∀ p ∈ s.buffers, p.2 ≠ [])
    (htot : s.totalBufferedBytes ≠ 0) :
    s.flushTrace.map Prod.fst = names ∧
    s.flushGW.buffers = [] ∧
    s.flushGW.totalBufferedBytes = 0 ∧
    s.flushGW.written = s.written ++ s.newChunkRecords ∧
    s.flushGW.written.length = s.written.length + names.length ∧
    (∀ k, k < names.length →
      (s.flushTrace.getD k ("", 0)).2 = s.written.length + k) ∧
    (∀ k, k < names.length →
      (s.flushTrace.getD k ("", 0)).2 % names.length
        = ((s.flushTrace.getD 0 ("", 0)).2 + k) % names.length) := by
  have hrecnames : s.newChunkRecords.map WChunk.name = names := by
    rw [GroupedWriter.newChunkRecords,
      filterMap_mkChunkRecord_names s.codecs s.buffers hne, hkeys]
  have hreclen : s.newChunkRecords.length = names.length := by
    simpa using congrArg List.length hrecnames
  have htr : s.flushTrace = traceAux s.written.length s.newChunkRecords := by
    simp [GroupedWriter.flushTrace, htot]
  have hidx : ∀ k, k < names.length →
      (s.flushTrace.getD k ("", 0)).2 = s.written.length + k := by
    intro k hk
    rw [htr]
    exact traceAux_idx _ _ k (by rw [hreclen]; exact hk)
  refine ⟨?_, ?_, ?_, ?_, ?_, hidx, ?_⟩
  · rw [htr, traceAux_map_fst, hrecnames]
  · simp [GroupedWriter.flushGW, htot]
  · simp [GroupedWriter.flushGW, htot]
  · simp [GroupedWriter.flushGW, htot]
  · simp [GroupedWriter.flushGW, htot, hreclen]
  · intro k hk
    have h0 : 0 < names.length := Nat.lt_of_le_of_lt (Nat.zero_le k) hk
    rw [hidx k hk, hidx 0 h0]
    simp

/-- Witness for the amended C1: a concrete two-name buffered state; the
flush writes `a` then `b` and the congruence holds at `k = 1`. -/
theorem groupedWriter_flush_order_witness :
    c1wState.flushTrace.map Prod.fst = ["a", "b"] ∧
    (c1wState.flushTrace.getD 1 ("", 0)).2 % 2
      = ((c1wState.flushTrace.getD 0 ("", 0)).2 + 1) % 2 := by
  have h := groupedWriter_flush_order c1wState ["a", "b"] rfl (by decide) (by decide)
  exact ⟨h.1, h.2.2.2.2.2.2 1 (by decide)⟩

end CryptoddArrays

namespace CryptoddArrays

/-- C1 counterexample: a grouped writer receives the same key set
`{a, b, c}` in two appends that order the keys differently, with an
explicit flush after each.  Both flushes succeed and write one chunk per
name, but the name orders of the two flushes differ (`a b c` then
`c b a`), so there is no fixed name order across flushes; and for the
caller-supplied order `a, b, c` the claimed congruence
`index(name_k) ≡ index(name_0) + k (mod 3)` holds for the first flush
but fails for the second (`index(b) = 4 ≢ index(a) + 1 = 6 (mod 3)`). -/
theorem groupedWriter_fixed_order_cex :
    c1tracesOf = c1traces ∧
    flushOrdersConsistent c1traces = false ∧
    claimCongruence ["a", "b", "c"] (c1traces.getD 0 []) = true ∧
    claimCongruence ["a", "b", "c"] (c1traces.getD 1 []) = false := by
  refine ⟨?_, by decide, by decide, by decide⟩
  have h1 : (GroupedWriter.init 1000000 [] (1/10) 10).append cexProbe
      [("a", f32cell), ("b", f32cell), ("c", f32cell)]
      = .ok (⟨false, [], 1000000, [], 1/10, 10000000,
          [("a", [f32cell]), ("b", [f32cell]), ("c", [f32cell])], 12, 2000000,
          some ["a", "b", "c"]⟩, []) := by
    norm_num [GroupedWriter.append, GroupedWriter.init,
      GroupedWriter.estimateUncompressedChunkSize, cexProbe, pyInt, ddAppend,
      alistLookup, alistAppendAt, keysEqAsSets, f32cell, NpArray.nbytes,
      NpArray.rows, Dtype.itemsize]
    rfl
  unfold c1tracesOf c1run c1ops
  simp only [GroupedWriter.run, h1]
  rfl

end CryptoddArrays

namespace CryptoddArrays

/-- C5 amended: calibration on an uncalibrated chunker with a non-empty
sample sets the assumed ratio to `max(min_compression_ratio,
compressed/original)` when `original > 0` and to `0.5` otherwise, and
sets the buffering threshold to
`min(int(target_chunk_bytes / ratio), target_chunk_bytes *
max_buffer_multiplier)` — the quotient is truncated to an integer by
`int(...)` before the `min`, unlike the claim's real-valued
`target_chunk_bytes / ratio`. -/
theorem autoChunker_calibration (s : AutoChunker) (mult rows : ℕ) (orig comp : ℤ)
    (hun : s.compressionRatioEstimate = none) (hrows : rows ≠ 0)
    (hmax : s.maxBufferBytes = s.targetChunkBytes * mult) :
    (s.estimateCompressionRatioStep rows orig comp).compressionRatioEstimate
      = some (if orig > 0 then max s.minCompressionRatio ((comp : ℚ) / (orig : ℚ))
              else (1 : ℚ) / 2) ∧
    (s.estimateCompressionRatioStep rows orig comp).uncompressedChunkSize
      = min (pyInt ((s.targetChunkBytes : ℚ) /
          (if orig > 0 then max s.minCompressionRatio ((comp : ℚ) / (orig : ℚ))
           else (1 : ℚ) / 2)))
          ((s.targetChunkBytes * mult : ℕ) : ℤ) := by
  unfold AutoChunker.estimateCompressionRatioStep
  simp [hun, hrows, hmax]

/-- Witness for the amended C5: target 10, multiplier 10, floor ratio
1/10, sample sizes (4, 1): ratio 1/4 and threshold 40 (exact also in
binary floating point: 0.25 and 40.0 are representable). -/
theorem autoChunker_calibration_witness :
    ((AutoChunker.init 10 (1/10) 10).estimateCompressionRatioStep 1 4 1).compressionRatioEstimate
      = some (1/4) ∧
    ((AutoChunker.init 10 (1/10) 10).estimateCompressionRatioStep 1 4 1).uncompressedChunkSize
      = 40 := by
  have h := autoChunker_calibration (AutoChunker.init 10 (1/10) 10) 10 1 4 1 rfl
    (by decide) rfl
  constructor
  · rw [h.1]
    norm_num [max_def, AutoChunker.init]
  · rw [h.2]
    norm_num [max_def, AutoChunker.init, pyInt]

/-- C5 counterexample: with target 10, multiplier 10, floor ratio 1/10
and sample sizes (4, 3), the code sets ratio 3/4 and threshold
`int(10 / 0.75) = 13`, whereas the claimed formula
`min(target / ratio, target * mult)` evaluates to 40/3 ≠ 13.  (In CPython
floats, 10 / 0.75 = 13.333333333333334, whose `int(...)` is likewise
13, so the rational model agrees with the float run at this input.) -/
theorem autoChunker_calibration_cex :
    ((AutoChunker.init 10 (1/10) 10).estimateCompressionRatioStep 1 4 3).compressionRatioEstimate
      = some (3/4) ∧
    ((AutoChunker.init 10 (1/10) 10).estimateCompressionRatioStep 1 4 3).uncompressedChunkSize
      = 13 ∧
    specClaimThreshold 10 10 (3/4) = 40/3 ∧
    ((13 : ℚ) ≠ 40/3) := by
  refine ⟨?_, ?_, ?_, by norm_num⟩
  · unfold AutoChunker.estimateCompressionRatioStep AutoChunker.init
    norm_num [max_def]
  · unfold AutoChunker.estimateCompressionRatioStep AutoChunker.init
    norm_num [max_def, pyInt]
  · norm_num [specClaimThreshold, min_def]

end CryptoddArrays
